import Mathlib

/-!
Shallow embedding of the feedback CRUD service of this repository
(`src/backend/src/handler.rs`, `src/backend/src/schema.rs`,
`src/common/src/lib.rs`).

Modelling conventions:
* The relational store (Postgres behind a sqlx pool) is embedded as an
  explicit state `Db`: the `feedbacks` table contents, the store's id
  generator, and a discrete clock.  Identifiers are naturals (the store
  generates a fresh one per insert) and timestamps are naturals; every time
  read (`Utc::now()` or the store's insert default) returns the clock and
  advances it, so successive reads are strictly increasing — the discrete
  stand-in for a real-time clock.
* Machine integers are naturals with explicit reduction modulo `2 ^ 64`
  where Rust `usize` arithmetic can wrap (release-mode semantics), and the
  `as i64` casts are made explicit.
* Fallible store calls are `Except` values; handlers that only ever observe
  a failure through one branch take the query result as an argument so both
  branches can be analysed.
-/

/-- Row of the `feedbacks` table, mirroring the sqlx `FeedbackModel` the
handlers fetch and return. -/
structure FeedbackModel where
  id : Nat
  text : String
  rating : Int
  created_at : Nat
  updated_at : Nat
  deriving Repr, DecidableEq

/-- Creation payload (`CreateFeedbackSchema` in `schema.rs`): required
`text : String` and `rating : i32`. -/
structure CreateFeedbackSchema where
  text : String
  rating : Int
  deriving Repr, DecidableEq

/-- Partial-update payload (`UpdateFeedbackSchema` in `schema.rs`): both
fields optional. -/
structure UpdateFeedbackSchema where
  text : Option String
  rating : Option Int
  deriving Repr, DecidableEq

/-- Pagination query options (`FilterOptions` in `schema.rs`); both fields
are `Option<usize>` in the source, so the carried naturals are below
`2 ^ 64`. -/
structure FilterOptions where
  page : Option Nat
  limit : Option Nat
  deriving Repr, DecidableEq

/-- Modelled from the spec: the opaque relational store reachable through the
connection pool.  The migration defining the `feedbacks` table is not among
the handler sources; per the spec the store generates `id` and the
timestamps on insert.  `rows` is the table contents, `nextId` the id
generator, `clock` the discrete clock. -/
structure Db where
  rows : List FeedbackModel
  nextId : Nat
  clock : Nat
  deriving Repr, DecidableEq

/-- Reading the current time: returns the clock value and advances the
clock, so two successive reads are strictly ordered. -/
def tick (db : Db) : Nat × Db :=
  (db.clock, { db with clock := db.clock + 1 })

/-- Status strings used in the response envelopes. -/
inductive Status where
  | success
  | fail
  | error
  deriving Repr, DecidableEq

/-- JSON body shapes produced by the handlers: a `message` envelope, a bare
`feedback` envelope (get/update), the nested `data.feedback` envelope
(create), the list envelope, and the empty 204 body. -/
inductive RespBody where
  | message (status : Status) (message : String)
  | feedbackData (status : Status) (feedback : FeedbackModel)
  | createData (status : Status) (feedback : FeedbackModel)
  | listData (status : Status) (results : Nat) (feedbacks : List FeedbackModel)
  | empty
  deriving Repr, DecidableEq

/-- An HTTP response: status code plus JSON body. -/
structure HttpResponse where
  code : Nat
  body : RespBody
  deriving Repr, DecidableEq

/-- Bool test that `pat` is a prefix of `s`, on character lists. -/
def charsStartWith : List Char → List Char → Bool
  | _, [] => true
  | [], _ :: _ => false
  | c :: cs, p :: ps => c == p && charsStartWith cs ps

/-- Bool test that `pat` occurs contiguously in `s`, on character lists. -/
def charsContain : List Char → List Char → Bool
  | [], pat => pat.isEmpty
  | c :: cs, pat => charsStartWith (c :: cs) pat || charsContain cs pat

/-- Embedding of Rust `str::contains` with a string pattern, used by the
create handler on the error's `Display` rendering. -/
def strContains (s pat : String) : Bool :=
  charsContain s.data pat.data

/-- The Postgres phrase by which the create handler recognises a
uniqueness-constraint violation. -/
def dupKeyPhrase : String :=
  "duplicate key value violates unique constraint"

/-- A store error as observed by a handler: its `Display` rendering
(`e.to_string()`), its Debug rendering (what the debug format specifier
prints), and — modelled from the spec — whether its actual cause is a
uniqueness-constraint violation reported by the store. -/
structure DbError where
  isUniqueViolation : Bool
  display : String
  debugFmt : String
  deriving Repr, DecidableEq

/-- Modelled from the spec: the engine renders a uniqueness-constraint
violation, and only such a violation, with the standard duplicate-key phrase
in its `Display` output. -/
def DbError.WF (e : DbError) : Prop :=
  e.isUniqueViolation = strContains e.display dupKeyPhrase

instance (e : DbError) : Decidable e.WF :=
  inferInstanceAs (Decidable (e.isUniqueViolation = strContains e.display dupKeyPhrase))

/-- Point lookup with `fetch_one` (`SELECT * FROM feedbacks WHERE id = $1`):
the first matching row, if any. -/
def selectById (db : Db) (id : Nat) : Option FeedbackModel :=
  db.rows.find? (fun r => r.id == id)

/-- The `ORDER by id` comparison. -/
def leById (a b : FeedbackModel) : Bool :=
  Nat.ble a.id b.id

/-- Insertion of a row into a table segment kept ascending in primary
key. -/
def insertByIdSorted (r : FeedbackModel) : List FeedbackModel → List FeedbackModel
  | [] => [r]
  | x :: xs => if leById r x then r :: x :: xs else x :: insertByIdSorted r xs

/-- Table contents in ascending primary-key order (`ORDER by id`), as an
insertion sort. -/
def sortById : List FeedbackModel → List FeedbackModel
  | [] => []
  | x :: xs => insertByIdSorted x (sortById xs)

/-- Modelled from the spec: the insert statement
(`INSERT INTO feedbacks (text, rating) VALUES ($1, $2) RETURNING *`); the
store generates the id and sets both timestamps to the current time, and
returns the stored row. -/
def insertFeedback (db : Db) (text : String) (rating : Int) : FeedbackModel × Db :=
  let t := tick db
  let row : FeedbackModel :=
    { id := t.2.nextId, text := text, rating := rating,
      created_at := t.1, updated_at := t.1 }
  (row, { rows := t.2.rows ++ [row], nextId := t.2.nextId + 1, clock := t.2.clock })

/-- The update statement with `fetch_one`
(`UPDATE feedbacks SET text = $1, rating = $2, updated_at = $3 WHERE id = $4
RETURNING *`): sets the three columns on every matching row and returns the
updated row when one exists. -/
def updateById (db : Db) (id : Nat) (text : String) (rating : Int) (now : Nat) :
    Option FeedbackModel × Db :=
  let rows := db.rows.map fun r =>
    if r.id = id then { r with text := text, rating := rating, updated_at := now } else r
  (rows.find? (fun r => r.id == id), { db with rows := rows })

/-- The delete statement (`DELETE FROM feedbacks WHERE id = $1`), reporting
the affected-row count. -/
def deleteById (db : Db) (id : Nat) : Nat × Db :=
  (db.rows.countP (fun r => r.id == id),
   { db with rows := db.rows.filter (fun r => r.id != id) })

/-- The `offset as i64` and `limit as i64` casts: reinterpret a usize value
as a signed 64-bit integer. -/
def toI64 (n : Nat) : Int :=
  if n < 2 ^ 63 then (n : Int) else (n : Int) - 2 ^ 64

/-- The list handler's offset computation `(page - 1) * limit` in wrapping
usize arithmetic (release-mode semantics): subtraction of 1 and the product
both reduced modulo `2 ^ 64`. -/
def offsetUsize (page limit : Nat) : Nat :=
  (page + (2 ^ 64 - 1)) % 2 ^ 64 * limit % 2 ^ 64

/-- The page query with `fetch_all`
(`SELECT * FROM feedbacks ORDER by id LIMIT $1 OFFSET $2`); the store
rejects a negative LIMIT or OFFSET. -/
def selectPage (db : Db) (limit offset : Int) : Except DbError (List FeedbackModel) :=
  if limit < 0 ∨ offset < 0 then
    .error { isUniqueViolation := false,
             display := "LIMIT or OFFSET must not be negative",
             debugFmt := "LIMIT or OFFSET must not be negative" }
  else
    .ok (((sortById db.rows).drop offset.toNat).take limit.toNat)

/-- GET `/feedbacks` (`feedback_list_handler`): defaults `limit` to 10 and
`page` to 1, computes the offset, runs the page query, and answers 200 with
the rows and their count, or 500 with a generic message on any store
error. -/
def feedback_list_handler (opts : FilterOptions) (db : Db) : HttpResponse :=
  let limit := opts.limit.getD 10
  let offset := offsetUsize (opts.page.getD 1) limit
  match selectPage db (toI64 limit) (toI64 offset) with
  | .error _ =>
      { code := 500,
        body := .message .error "Something bad happened while fetching all feedback items" }
  | .ok feedbacks =>
      { code := 200, body := .listData .success feedbacks.length feedbacks }

/-- The match on the insert query result inside `create_feedback_handler`:
200 with the created row on success; on error, 400 when the error's
`Display` rendering contains the duplicate-key phrase, otherwise 500 with
the raw Debug rendering as the message. -/
def create_feedback_response (qr : Except DbError FeedbackModel) : HttpResponse :=
  match qr with
  | .ok feedback => { code := 200, body := .createData .success feedback }
  | .error e =>
      if strContains e.display dupKeyPhrase then
        { code := 400, body := .message .fail "Feedback with that title already exists" }
      else
        { code := 500, body := .message .error e.debugFmt }

/-- POST `/feedbacks/` (`create_feedback_handler`) under normal store
operation: run the insert and shape the response from the query result. -/
def create_feedback_handler (body : CreateFeedbackSchema) (db : Db) : HttpResponse × Db :=
  let q := insertFeedback db body.text body.rating
  (create_feedback_response (.ok q.1), q.2)

/-- GET `/feedbacks/{id}` (`get_feedback_handler`): point lookup; any
failure of the lookup is answered with 404 fail naming the identifier. -/
def get_feedback_handler (id : Nat) (db : Db) : HttpResponse :=
  match selectById db id with
  | some feedback => { code := 200, body := .feedbackData .success feedback }
  | none =>
      { code := 404,
        body := .message .fail ("feedback with ID: " ++ toString id ++ " not found") }

/-- PATCH `/feedbacks/{id}` (`edit_feedback_handler`): fetch the record (404
fail when absent), read the clock, write back the merged fields with the
fresh `updated_at`, and answer 200 with the returned row.  The case where
the write returns no row mirrors the handler's 500 error branch. -/
def edit_feedback_handler (id : Nat) (body : UpdateFeedbackSchema) (db : Db) :
    HttpResponse × Db :=
  match selectById db id with
  | none =>
      ({ code := 404,
         body := .message .fail ("Feedback with ID: " ++ toString id ++ " not found") }, db)
  | some feedback =>
      let t := tick db
      let q := updateById t.2 id (body.text.getD feedback.text)
        (body.rating.getD feedback.rating) t.1
      match q.1 with
      | some updated => ({ code := 200, body := .feedbackData .success updated }, q.2)
      | none => ({ code := 500, body := .message .error "Error: RowNotFound" }, q.2)

/-- DELETE `/feedbacks/{id}` (`delete_feedback_handler`): the execute result
is unwrapped, so a store failure aborts the request worker without any HTTP
response — modelled as `none`; otherwise a zero affected-row count gives 404
fail and a positive one gives 204 with no body. -/
def delete_feedback_handler (id : Nat) (exec : Except DbError (Nat × Db)) :
    Option (HttpResponse × Db) :=
  match exec with
  | .error _ => none
  | .ok q =>
      if q.1 = 0 then
        some ({ code := 404,
                body := .message .fail ("Feedback with ID: " ++ toString id ++ " not found") },
              q.2)
      else
        some ({ code := 204, body := .empty }, q.2)

/-- The delete handler under normal store operation. -/
def runDelete (db : Db) (id : Nat) : Option (HttpResponse × Db) :=
  delete_feedback_handler id (.ok (deleteById db id))

/-- Store well-formedness maintained across the operations: every stored id
is below the generator, every stored timestamp lies in the clock's past, and
`created_at ≤ updated_at`. -/
def DbWF (db : Db) : Prop :=
  ∀ r ∈ db.rows, r.id < db.nextId ∧ r.updated_at < db.clock ∧ r.created_at ≤ r.updated_at

/-- Pointwise frame relation between table states: same shape, with `id` and
`created_at` intact everywhere, and rows other than the targeted one wholly
untouched. -/
def FramePreserved (id : Nat) (old new : List FeedbackModel) : Prop :=
  List.Forall₂
    (fun r r2 => r2.id = r.id ∧ r2.created_at = r.created_at ∧ (r.id ≠ id → r2 = r))
    old new

/-- A map whose function preserves the search predicate commutes with
`List.find?`. -/
theorem find?_map_of_pred_preserved (p : FeedbackModel → Bool)
    (f : FeedbackModel → FeedbackModel) (hf : ∀ r, p (f r) = p r) :
    ∀ rows : List FeedbackModel, (rows.map f).find? p = (rows.find? p).map f := by
  intro rows
  induction rows with
  | nil => rfl
  | cons x xs ih =>
      rw [List.map_cons, List.find?_cons, List.find?_cons, hf x]
      cases p x
      · exact ih
      · rfl

/-- C9: when the delete statement's execution fails, the unwrapped result
aborts the request worker: no HTTP response is produced, for any identifier
and any store error. -/
theorem delete_store_failure_aborts (id : Nat) (e : DbError) :
    delete_feedback_handler id (.error e) = none := rfl

/-- Witness: a concrete failing delete execution produces no response. -/
theorem delete_store_failure_aborts_witness :
    delete_feedback_handler 7
      (.error { isUniqueViolation := false, display := "connection reset",
                debugFmt := "Io(ConnectionReset)" }) = none :=
  delete_store_failure_aborts 7
    { isUniqueViolation := false, display := "connection reset",
      debugFmt := "Io(ConnectionReset)" }

/-- C10: the create handler reports a store error as a duplicate (400 fail)
precisely when the error's Display rendering contains the duplicate-key
phrase, and answers every error without that substring with a 500 carrying
the Debug rendering as the message. -/
theorem create_error_string_classification (e : DbError) :
    (create_feedback_response (.error e) =
        { code := 400, body := .message .fail "Feedback with that title already exists" } ↔
      strContains e.display dupKeyPhrase = true) ∧
    (strContains e.display dupKeyPhrase = false →
      create_feedback_response (.error e) =
        { code := 500, body := .message .error e.debugFmt }) := by
  unfold create_feedback_response
  cases h : strContains e.display dupKeyPhrase <;> simp [h]

/-- Witness: a concrete error without the phrase is answered 500 with its
Debug rendering. -/
theorem create_error_string_classification_witness :
    strContains "connection reset by peer" dupKeyPhrase = false ∧
    create_feedback_response
        (.error { isUniqueViolation := false, display := "connection reset by peer",
                  debugFmt := "Io(ConnectionReset)" }) =
      { code := 500, body := .message .error "Io(ConnectionReset)" } :=
  ⟨by decide,
   (create_error_string_classification
      { isUniqueViolation := false, display := "connection reset by peer",
        debugFmt := "Io(ConnectionReset)" }).2 (by decide)⟩

/-- C6: create error contract: an insert failure that is a
uniqueness-constraint violation is answered 400 fail with the
already-exists message; every other store error is answered 500 error with
the raw error detail as the message. -/
theorem create_error_contract (e : DbError) (hwf : e.WF) :
    (e.isUniqueViolation = true →
      create_feedback_response (.error e) =
        { code := 400, body := .message .fail "Feedback with that title already exists" }) ∧
    (e.isUniqueViolation = false →
      create_feedback_response (.error e) =
        { code := 500, body := .message .error e.debugFmt }) := by
  unfold DbError.WF at hwf
  constructor
  · intro h
    have hs : strContains e.display dupKeyPhrase = true := by rw [← hwf]; exact h
    simp [create_feedback_response, hs]
  · intro h
    have hs : strContains e.display dupKeyPhrase = false := by rw [← hwf]; exact h
    simp [create_feedback_response, hs]

/-- Witness: a concrete duplicate-key violation is answered 400 fail. -/
theorem create_error_contract_witness :
    DbError.WF { isUniqueViolation := true,
                 display := "error returned from database: duplicate key value violates unique constraint feedbacks_pkey",
                 debugFmt := "Database(PgDatabaseError)" } ∧
    create_feedback_response
        (.error { isUniqueViolation := true,
                  display := "error returned from database: duplicate key value violates unique constraint feedbacks_pkey",
                  debugFmt := "Database(PgDatabaseError)" }) =
      { code := 400, body := .message .fail "Feedback with that title already exists" } :=
  ⟨by decide,
   (create_error_contract
      { isUniqueViolation := true,
        display := "error returned from database: duplicate key value violates unique constraint feedbacks_pkey",
        debugFmt := "Database(PgDatabaseError)" } (by decide)).1 rfl⟩

/-- C4 counterexample: page 0 with limit 0 wraps to offset 0, and a limit
above `2 ^ 63` wraps to a positive i64 offset, so a page of at most 0 does
not yield a negative offset for every limit. -/
theorem page_zero_not_always_negative :
    ¬ toI64 (offsetUsize 0 0) < 0 ∧ ¬ toI64 (offsetUsize 0 (2 ^ 63 + 1)) < 0 := by
  constructor <;> decide

/-- C4 amended: for every limit with `1 ≤ limit ≤ 2 ^ 63`, a request with
page 0 (the only usize value at most 0) wraps to an offset whose i64
reading is the negative value `-limit`. -/
theorem page_zero_offset_negative (limit : Nat) (h1 : 1 ≤ limit) (h2 : limit ≤ 2 ^ 63) :
    toI64 (offsetUsize 0 limit) = -(limit : Int) ∧ toI64 (offsetUsize 0 limit) < 0 := by
  have hoff : offsetUsize 0 limit = 2 ^ 64 - limit := by
    unfold offsetUsize
    omega
  have hge : ¬ (2 ^ 64 - limit < 2 ^ 63) := by omega
  have hval : toI64 (offsetUsize 0 limit) = -(limit : Int) := by
    rw [hoff]
    unfold toI64
    rw [if_neg hge]
    omega
  exact ⟨hval, by rw [hval]; omega⟩

/-- Witness: with limit 10 the wrapped offset reads as the i64 value -10. -/
theorem page_zero_offset_negative_witness :
    1 ≤ 10 ∧ 10 ≤ 2 ^ 63 ∧
      (toI64 (offsetUsize 0 10) = -(10 : Int) ∧ toI64 (offsetUsize 0 10) < 0) :=
  ⟨by decide, by decide, page_zero_offset_negative 10 (by decide) (by decide)⟩

instance (db : Db) : Decidable (DbWF db) :=
  inferInstanceAs
    (Decidable (∀ r ∈ db.rows,
      r.id < db.nextId ∧ r.updated_at < db.clock ∧ r.created_at ≤ r.updated_at))

/-- A concrete one-row store used by the witnesses. -/
def dbOne : Db :=
  { rows := [{ id := 1, text := "hi", rating := 4, created_at := 0, updated_at := 0 }],
    nextId := 2, clock := 1 }

/-- C5: fetching or updating an identifier absent from the store answers 404
with a fail status and a message naming the identifier — in particular never
a 500 — and the update leaves the store untouched. -/
theorem absent_id_answers_404 (db : Db) (id : Nat) (body : UpdateFeedbackSchema)
    (habs : ∀ r ∈ db.rows, r.id ≠ id) :
    get_feedback_handler id db =
      { code := 404,
        body := .message .fail ("feedback with ID: " ++ toString id ++ " not found") } ∧
    edit_feedback_handler id body db =
      ({ code := 404,
         body := .message .fail ("Feedback with ID: " ++ toString id ++ " not found") }, db) ∧
    (get_feedback_handler id db).code ≠ 500 ∧
    (edit_feedback_handler id body db).1.code ≠ 500 := by
  have hnone : selectById db id = none := by
    unfold selectById
    rw [List.find?_eq_none]
    intro r hr
    simp [habs r hr]
  have hget : get_feedback_handler id db =
      { code := 404,
        body := .message .fail ("feedback with ID: " ++ toString id ++ " not found") } := by
    simp [get_feedback_handler, hnone]
  have hedit : edit_feedback_handler id body db =
      ({ code := 404,
         body := .message .fail ("Feedback with ID: " ++ toString id ++ " not found") }, db) := by
    simp [edit_feedback_handler, hnone]
  exact ⟨hget, hedit, by simp [hget], by simp [hedit]⟩

/-- Witness: identifier 3 is absent from the one-row store; both handlers
answer 404 fail naming it. -/
theorem absent_id_answers_404_witness :
    (∀ r ∈ dbOne.rows, r.id ≠ 3) ∧
    (get_feedback_handler 3 dbOne =
      { code := 404,
        body := .message .fail ("feedback with ID: " ++ toString 3 ++ " not found") } ∧
    edit_feedback_handler 3 { text := none, rating := some 2 } dbOne =
      ({ code := 404,
         body := .message .fail ("Feedback with ID: " ++ toString 3 ++ " not found") }, dbOne) ∧
    (get_feedback_handler 3 dbOne).code ≠ 500 ∧
    (edit_feedback_handler 3 { text := none, rating := some 2 } dbOne).1.code ≠ 500) :=
  ⟨by decide, absent_id_answers_404 dbOne 3 { text := none, rating := some 2 } (by decide)⟩

/-- No row surviving the delete filter still matches the deleted id. -/
theorem countP_filter_ne_eq_zero (l : List FeedbackModel) (id : Nat) :
    (l.filter (fun r => r.id != id)).countP (fun r => r.id == id) = 0 := by
  rw [List.countP_eq_zero]
  intro r hr
  have h := (List.mem_filter.mp hr).2
  simp only [bne_iff_ne, ne_eq] at h
  simp [h]

/-- C7: delete status contract: a zero affected-row count answers 404 fail,
a positive one answers 204 with no body; deleting the same identifier again
answers 404, and fetching a deleted identifier answers 404. -/
theorem delete_contract (db : Db) (id : Nat) :
    runDelete db id =
      some
        ((if db.rows.any (fun r => r.id == id) then { code := 204, body := .empty }
          else
            { code := 404,
              body := .message .fail ("Feedback with ID: " ++ toString id ++ " not found") }),
         { db with rows := db.rows.filter (fun r => r.id != id) }) ∧
    runDelete { db with rows := db.rows.filter (fun r => r.id != id) } id =
      some
        ({ code := 404,
           body := .message .fail ("Feedback with ID: " ++ toString id ++ " not found") },
         { db with rows := db.rows.filter (fun r => r.id != id) }) ∧
    get_feedback_handler id { db with rows := db.rows.filter (fun r => r.id != id) } =
      { code := 404,
        body := .message .fail ("feedback with ID: " ++ toString id ++ " not found") } := by
  refine ⟨?_, ?_, ?_⟩
  · cases hany : db.rows.any (fun r => r.id == id) with
    | false =>
        rw [List.any_eq_false] at hany
        have h0 : db.rows.countP (fun r => r.id == id) = 0 :=
          List.countP_eq_zero.mpr hany
        simp [runDelete, delete_feedback_handler, deleteById, h0]
    | true =>
        have h0 : db.rows.countP (fun r => r.id == id) ≠ 0 := by
          rw [Ne, List.countP_eq_zero]
          intro hall
          rcases List.any_eq_true.mp hany with ⟨x, hx, hpx⟩
          exact hall x hx hpx
        simp [runDelete, delete_feedback_handler, deleteById, h0]
  · have hff : (db.rows.filter (fun r => r.id != id)).filter (fun r => r.id != id) =
        db.rows.filter (fun r => r.id != id) := by
      rw [List.filter_filter]
      simp
    simp [runDelete, delete_feedback_handler, deleteById, countP_filter_ne_eq_zero, hff]
  · have hnone :
        selectById { db with rows := db.rows.filter (fun r => r.id != id) } id = none := by
      unfold selectById
      rw [List.find?_eq_none]
      intro r hr
      have h := (List.mem_filter.mp hr).2
      simp only [bne_iff_ne, ne_eq] at h
      simp [h]
    simp [get_feedback_handler, hnone]

/-- Witness: deleting the single stored record answers 204, a second delete
and a subsequent fetch answer 404. -/
theorem delete_contract_witness :
    runDelete dbOne 1 =
      some
        ((if dbOne.rows.any (fun r => r.id == 1) then { code := 204, body := .empty }
          else
            { code := 404,
              body := .message .fail ("Feedback with ID: " ++ toString 1 ++ " not found") }),
         { dbOne with rows := dbOne.rows.filter (fun r => r.id != 1) }) ∧
    runDelete { dbOne with rows := dbOne.rows.filter (fun r => r.id != 1) } 1 =
      some
        ({ code := 404,
           body := .message .fail ("Feedback with ID: " ++ toString 1 ++ " not found") },
         { dbOne with rows := dbOne.rows.filter (fun r => r.id != 1) }) ∧
    get_feedback_handler 1 { dbOne with rows := dbOne.rows.filter (fun r => r.id != 1) } =
      { code := 404,
        body := .message .fail ("feedback with ID: " ++ toString 1 ++ " not found") } :=
  delete_contract dbOne 1

/-- C1: creating a feedback and fetching it by the returned identifier
round-trips: both the creation response and the fetched record carry exactly
the input text and rating, with the store-assigned id and timestamps. -/
theorem create_then_get_roundtrip (db : Db) (body : CreateFeedbackSchema) (hwf : DbWF db) :
    (create_feedback_handler body db).1 =
      { code := 200,
        body := .createData .success
          { id := db.nextId, text := body.text, rating := body.rating,
            created_at := db.clock, updated_at := db.clock } } ∧
    get_feedback_handler db.nextId (create_feedback_handler body db).2 =
      { code := 200,
        body := .feedbackData .success
          { id := db.nextId, text := body.text, rating := body.rating,
            created_at := db.clock, updated_at := db.clock } } := by
  constructor
  · rfl
  · have hnone : db.rows.find? (fun r => r.id == db.nextId) = none := by
      rw [List.find?_eq_none]
      intro r hr
      have h := (hwf r hr).1
      simp only [beq_iff_eq]
      omega
    simp [get_feedback_handler, selectById, create_feedback_handler, insertFeedback, tick,
      create_feedback_response, List.find?_append, hnone]

/-- Witness: creating text "hello" with rating 5 on the one-row store and
fetching it back yields exactly those fields. -/
theorem create_then_get_roundtrip_witness :
    DbWF dbOne ∧
    ((create_feedback_handler { text := "hello", rating := 5 } dbOne).1 =
      { code := 200,
        body := .createData .success
          { id := dbOne.nextId, text := "hello", rating := 5,
            created_at := dbOne.clock, updated_at := dbOne.clock } } ∧
    get_feedback_handler dbOne.nextId
        (create_feedback_handler { text := "hello", rating := 5 } dbOne).2 =
      { code := 200,
        body := .feedbackData .success
          { id := dbOne.nextId, text := "hello", rating := 5,
            created_at := dbOne.clock, updated_at := dbOne.clock } }) :=
  ⟨by decide, create_then_get_roundtrip dbOne { text := "hello", rating := 5 } (by decide)⟩

/-- When the fetched row exists, the update statement returns that row with
the three written columns replaced. -/
theorem updateById_found (db : Db) (id : Nat) (text : String) (rating : Int) (now : Nat)
    (prior : FeedbackModel) (hfind : db.rows.find? (fun r => r.id == id) = some prior) :
    (updateById db id text rating now).1 =
      some { prior with text := text, rating := rating, updated_at := now } := by
  have hpres : ∀ r : FeedbackModel,
      (((fun r => if r.id = id then
            { r with text := text, rating := rating, updated_at := now }
          else r) r).id == id) = (r.id == id) := by
    intro r
    by_cases h : r.id = id <;> simp [h]
  have hpid : prior.id = id := by simpa using List.find?_some hfind
  simp only [updateById]
  rw [find?_map_of_pred_preserved _ _ hpres db.rows, hfind]
  simp [hpid]

/-- C2: partial-update merge: each field takes the body's value when present
and otherwise the stored value; `updated_at` is set to the freshly read
clock, strictly above the prior `updated_at`, even when the body carries no
field at all. -/
theorem edit_merge (db : Db) (id : Nat) (body : UpdateFeedbackSchema)
    (prior : FeedbackModel) (hwf : DbWF db) (hfind : selectById db id = some prior) :
    edit_feedback_handler id body db =
      ({ code := 200,
         body := .feedbackData .success
           { prior with
               text := body.text.getD prior.text,
               rating := body.rating.getD prior.rating,
               updated_at := db.clock } },
       { rows := db.rows.map fun r =>
           if r.id = id then
             { r with
                 text := body.text.getD prior.text,
                 rating := body.rating.getD prior.rating,
                 updated_at := db.clock }
           else r,
         nextId := db.nextId, clock := db.clock + 1 }) ∧
    prior.updated_at < db.clock := by
  have hfind2 : db.rows.find? (fun r => r.id == id) = some prior := hfind
  have hmem : prior ∈ db.rows := List.mem_of_find?_eq_some hfind2
  have hlt : prior.updated_at < db.clock := (hwf prior hmem).2.1
  refine ⟨?_, hlt⟩
  have hfound := updateById_found { db with clock := db.clock + 1 } id
    (body.text.getD prior.text) (body.rating.getD prior.rating) db.clock prior hfind2
  simp only [edit_feedback_handler, hfind, tick]
  rw [hfound]
  simp [updateById]

/-- Witness: updating only the rating of the stored record preserves its
text, sets the new rating, and stamps a strictly later `updated_at`. -/
theorem edit_merge_witness :
    DbWF dbOne ∧
    selectById dbOne 1 =
      some { id := 1, text := "hi", rating := 4, created_at := 0, updated_at := 0 } ∧
    (edit_feedback_handler 1 { text := none, rating := some 2 } dbOne =
      ({ code := 200,
         body := .feedbackData .success
           { id := 1, text := "hi", rating := 2, created_at := 0, updated_at := 1 } },
       { rows := [{ id := 1, text := "hi", rating := 2, created_at := 0, updated_at := 1 }],
         nextId := 2, clock := 2 }) ∧
     (0 : Nat) < 1) := by
  refine ⟨by decide, by decide, ?_⟩
  have h := edit_merge dbOne 1 { text := none, rating := some 2 }
    { id := 1, text := "hi", rating := 4, created_at := 0, updated_at := 0 }
    (by decide) (by decide)
  exact ⟨h.1.trans (by decide), h.2⟩

/-- C8: frame condition: the update handler changes only `text`, `rating`
and `updated_at` — `id` and `created_at` survive on every row and rows
other than the target are wholly untouched; the create handler only appends
a fresh row, leaving every existing row intact, and the delete handler only
removes rows, so no handler other than update mutates a stored record (the
get and list handlers read the store without returning a new state at
all). -/
theorem update_frame (db : Db) (id : Nat) (body : UpdateFeedbackSchema)
    (cbody : CreateFeedbackSchema) :
    FramePreserved id db.rows (edit_feedback_handler id body db).2.rows ∧
    (create_feedback_handler cbody db).2.rows =
      db.rows ++ [{ id := db.nextId, text := cbody.text, rating := cbody.rating,
                    created_at := db.clock, updated_at := db.clock }] ∧
    (∀ r ∈ (deleteById db id).2.rows, r ∈ db.rows) := by
  refine ⟨?_, rfl, ?_⟩
  · unfold FramePreserved
    cases hsel : selectById db id with
    | none =>
        simp only [edit_feedback_handler, hsel]
        exact List.forall₂_same.mpr fun r _ => ⟨rfl, rfl, fun _ => rfl⟩
    | some feedback =>
        simp only [edit_feedback_handler, hsel, tick, updateById]
        cases hq : List.find? (fun r => r.id == id)
            (db.rows.map fun r =>
              if r.id = id then
                { r with text := body.text.getD feedback.text,
                         rating := body.rating.getD feedback.rating,
                         updated_at := db.clock }
              else r) with
        | none =>
            simp only [hq, List.forall₂_map_right_iff]
            refine List.forall₂_same.mpr fun r _ => ?_
            by_cases h : r.id = id <;> simp [h]
        | some updated =>
            simp only [hq, List.forall₂_map_right_iff]
            refine List.forall₂_same.mpr fun r _ => ?_
            by_cases h : r.id = id <;> simp [h]
  · intro r hr
    exact List.mem_of_mem_filter hr

/-- Witness: the frame condition at the one-row store. -/
theorem update_frame_witness :
    FramePreserved 1 dbOne.rows
      (edit_feedback_handler 1 { text := some "new", rating := none } dbOne).2.rows ∧
    (create_feedback_handler { text := "x", rating := 3 } dbOne).2.rows =
      dbOne.rows ++ [{ id := dbOne.nextId, text := "x", rating := 3,
                       created_at := dbOne.clock, updated_at := dbOne.clock }] ∧
    (∀ r ∈ (deleteById dbOne 1).2.rows, r ∈ dbOne.rows) :=
  update_frame dbOne 1 { text := some "new", rating := none } { text := "x", rating := 3 }

/-- Membership through sorted insertion: exactly the inserted row and the
old rows. -/
theorem mem_insertByIdSorted (r b : FeedbackModel) (l : List FeedbackModel) :
    b ∈ insertByIdSorted r l ↔ b = r ∨ b ∈ l := by
  induction l with
  | nil => simp [insertByIdSorted]
  | cons x xs ih =>
      rw [insertByIdSorted]
      by_cases h : leById r x
      · rw [if_pos h]
        simp [List.mem_cons]
      · rw [if_neg h]
        simp [List.mem_cons, ih]
        tauto

/-- Sorted insertion preserves the ascending primary-key order. -/
theorem pairwise_insertByIdSorted (r : FeedbackModel) (l : List FeedbackModel)
    (hl : l.Pairwise (fun a b => a.id ≤ b.id)) :
    (insertByIdSorted r l).Pairwise (fun a b => a.id ≤ b.id) := by
  induction l with
  | nil => simp [insertByIdSorted]
  | cons x xs ih =>
      rw [insertByIdSorted]
      have hl2 := List.pairwise_cons.mp hl
      by_cases h : leById r x
      · rw [if_pos h]
        have hrx : r.id ≤ x.id := by simpa [leById, Nat.ble_eq] using h
        refine List.pairwise_cons.mpr ⟨?_, hl⟩
        intro b hb
        rcases List.mem_cons.mp hb with hb | hb
        · subst hb
          exact hrx
        · have h3 := hl2.1 b hb
          omega
      · rw [if_neg h]
        have hxr : x.id ≤ r.id := by
          have h2 : ¬ r.id ≤ x.id := by simpa [leById, Nat.ble_eq] using h
          omega
        refine List.pairwise_cons.mpr ⟨?_, ih hl2.2⟩
        intro b hb
        rcases (mem_insertByIdSorted r b xs).mp hb with hb | hb
        · subst hb
          exact hxr
        · exact hl2.1 b hb

/-- The sorted table scan is pairwise ascending in primary key. -/
theorem sortById_pairwise (rows : List FeedbackModel) :
    (sortById rows).Pairwise (fun a b => a.id ≤ b.id) := by
  induction rows with
  | nil => simp [sortById]
  | cons x xs ih => exact pairwise_insertByIdSorted x _ ih

/-- The page of records the list query yields: the sorted table with the
offset dropped and the limit taken. -/
def pageOf (db : Db) (page limit : Nat) : List FeedbackModel :=
  ((sortById db.rows).drop ((page - 1) * limit)).take limit

/-- For in-range page and limit values the list handler answers 200 with
exactly the page of records and their count. -/
theorem feedback_list_handler_ok (db : Db) (opts : FilterOptions) (page limit : Nat)
    (hp : opts.page.getD 1 = page) (hl : opts.limit.getD 10 = limit)
    (hpage1 : 1 ≤ page) (hpage2 : page < 2 ^ 64) (hlimit : limit < 2 ^ 63)
    (hprod : (page - 1) * limit < 2 ^ 63) :
    feedback_list_handler opts db =
      { code := 200,
        body := .listData .success (pageOf db page limit).length (pageOf db page limit) } := by
  have h1 : (page + (2 ^ 64 - 1)) % 2 ^ 64 = page - 1 := by omega
  have hoff : offsetUsize page limit = (page - 1) * limit := by
    unfold offsetUsize
    rw [h1]
    exact Nat.mod_eq_of_lt (lt_of_lt_of_le hprod (by norm_num))
  have hto1 : toI64 limit = (limit : Int) := by
    unfold toI64
    rw [if_pos hlimit]
  have hto2 : toI64 (offsetUsize page limit) = (((page - 1) * limit : Nat) : Int) := by
    rw [hoff]
    unfold toI64
    rw [if_pos hprod]
  simp only [feedback_list_handler, hp, hl, hto1, hto2]
  unfold selectPage
  rw [if_neg (by push_neg; exact ⟨Int.natCast_nonneg _, Int.natCast_nonneg _⟩)]
  simp only [Int.toNat_natCast]
  unfold pageOf
  rfl

/-- C3: list pagination: with page defaulting to 1 and limit defaulting to
10, the handler answers 200 with exactly the records at offset
(page - 1) * limit of the primary-key-ordered table, at most limit of them
and in ascending primary-key order, together with their count. -/
theorem list_pagination (db : Db) (opts : FilterOptions)
    (hpage1 : 1 ≤ opts.page.getD 1) (hpage2 : opts.page.getD 1 < 2 ^ 64)
    (hlimit : opts.limit.getD 10 < 2 ^ 63)
    (hprod : (opts.page.getD 1 - 1) * opts.limit.getD 10 < 2 ^ 63) :
    feedback_list_handler opts db =
      { code := 200,
        body := .listData .success
          (pageOf db (opts.page.getD 1) (opts.limit.getD 10)).length
          (pageOf db (opts.page.getD 1) (opts.limit.getD 10)) } ∧
    (pageOf db (opts.page.getD 1) (opts.limit.getD 10)).length ≤ opts.limit.getD 10 ∧
    (pageOf db (opts.page.getD 1) (opts.limit.getD 10)).Pairwise
      (fun a b => a.id ≤ b.id) := by
  refine ⟨feedback_list_handler_ok db opts _ _ rfl rfl hpage1 hpage2 hlimit hprod, ?_, ?_⟩
  · unfold pageOf
    rw [List.length_take]
    exact min_le_left _ _
  · have hsub : List.Sublist (pageOf db (opts.page.getD 1) (opts.limit.getD 10))
        (sortById db.rows) := by
      unfold pageOf
      exact (List.take_sublist _ _).trans (List.drop_sublist _ _)
    exact (sortById_pairwise db.rows).sublist hsub

/-- A concrete five-row store for the pagination witness. -/
def db5 : Db :=
  { rows := [{ id := 1, text := "a", rating := 1, created_at := 0, updated_at := 0 },
             { id := 2, text := "b", rating := 2, created_at := 1, updated_at := 1 },
             { id := 3, text := "c", rating := 3, created_at := 2, updated_at := 2 },
             { id := 4, text := "d", rating := 4, created_at := 3, updated_at := 3 },
             { id := 5, text := "e", rating := 5, created_at := 4, updated_at := 4 }],
    nextId := 6, clock := 5 }

/-- Witness: on the five-row store with limit 2, page 1 yields the first two
records, page 2 the next two, page 3 the remaining one. -/
theorem list_pagination_witness :
    (feedback_list_handler { page := some 1, limit := some 2 } db5 =
      { code := 200, body := .listData .success (pageOf db5 1 2).length (pageOf db5 1 2) } ∧
     (pageOf db5 1 2).length ≤ 2 ∧
     (pageOf db5 1 2).Pairwise (fun a b => a.id ≤ b.id)) ∧
    pageOf db5 1 2 = [{ id := 1, text := "a", rating := 1, created_at := 0, updated_at := 0 },
                      { id := 2, text := "b", rating := 2, created_at := 1, updated_at := 1 }] ∧
    (feedback_list_handler { page := some 2, limit := some 2 } db5 =
      { code := 200, body := .listData .success (pageOf db5 2 2).length (pageOf db5 2 2) } ∧
     (pageOf db5 2 2).length ≤ 2 ∧
     (pageOf db5 2 2).Pairwise (fun a b => a.id ≤ b.id)) ∧
    pageOf db5 2 2 = [{ id := 3, text := "c", rating := 3, created_at := 2, updated_at := 2 },
                      { id := 4, text := "d", rating := 4, created_at := 3, updated_at := 3 }] ∧
    (feedback_list_handler { page := some 3, limit := some 2 } db5 =
      { code := 200, body := .listData .success (pageOf db5 3 2).length (pageOf db5 3 2) } ∧
     (pageOf db5 3 2).length ≤ 2 ∧
     (pageOf db5 3 2).Pairwise (fun a b => a.id ≤ b.id)) ∧
    pageOf db5 3 2 = [{ id := 5, text := "e", rating := 5, created_at := 4, updated_at := 4 }] := by
  refine ⟨?_, by decide, ?_, by decide, ?_, by decide⟩
  · exact list_pagination db5 { page := some 1, limit := some 2 }
      (by decide) (by decide) (by decide) (by decide)
  · exact list_pagination db5 { page := some 2, limit := some 2 }
      (by decide) (by decide) (by decide) (by decide)
  · exact list_pagination db5 { page := some 3, limit := some 2 }
      (by decide) (by decide) (by decide) (by decide)
